import Mathlib

set_option synthInstance.maxSize 1024

/-!
Shallow embedding of `fetch.py` (garminspo2): a script that synchronizes
SpO2 data from the Garmin Connect API into a local sqlite database and
pushes the current day average to the intervals.icu wellness record.

Conventions of the embedding:
* Python exceptions are modelled by the inductive `PyExc`; a Python callable
  that can raise is modelled as a value of `Except PyExc _` (its outcome).
* Machine-level concerns (network, stdout) are abstracted: the remote API is
  a parameter giving each call its outcome; print statements are dropped,
  except where a visible trace matters (the effect trace of `init_api` and
  the visited-day trace of `populateSpoList`).
* Python dicts whose values matter are association lists; Python truthiness
  of a dict is non-emptiness, of `os.getenv` results it is
  "present and non-empty".
-/

deriving instance DecidableEq for Except

namespace GarminSpo2

/-- Python exceptions relevant to `fetch.py`.  `keyboardInterrupt` and
`systemExit` derive from `BaseException` but not from `Exception`; all other
constructors model `Exception` subclasses.  The `String` argument models the
textual representation `str(e)`; for `GarthHTTPError` the `Option Nat` models
`getattr(getattr(e, "response", None), "status_code", None)`. -/
inductive PyExc where
  | garthHTTPError (statusCode : Option Nat) (text : String)
  | garthException (text : String)
  | fileNotFoundError
  | garminConnectAuthenticationError (text : String)
  | garminConnectConnectionError (text : String)
  | garminConnectTooManyRequestsError (text : String)
  | requestsHTTPError (text : String)
  | operationalError (text : String)
  | unboundLocalError (name : String)
  | valueError (text : String)
  | otherException (text : String)
  | keyboardInterrupt
  | systemExit (code : Nat)
deriving DecidableEq

/-- Whether the exception derives from Python `Exception` (and is therefore
caught by a bare `except Exception` clause).  `KeyboardInterrupt` and
`SystemExit` derive only from `BaseException`. -/
def PyExc.isException : PyExc → Bool
  | .keyboardInterrupt => false
  | .systemExit _ => false
  | _ => true

/-- The textual representation `str(e)` of an exception. -/
def PyExc.text : PyExc → String
  | .garthHTTPError _ t => t
  | .garthException t => t
  | .fileNotFoundError => "FileNotFoundError"
  | .garminConnectAuthenticationError t => t
  | .garminConnectConnectionError t => t
  | .garminConnectTooManyRequestsError t => t
  | .requestsHTTPError t => t
  | .operationalError t => t
  | .unboundLocalError n => "local variable " ++ n ++ " referenced before assignment"
  | .valueError t => t
  | .otherException t => t
  | .keyboardInterrupt => "KeyboardInterrupt"
  | .systemExit _ => "SystemExit"

/-- Occurrence of `pat` as a contiguous sublist of `s` (helper for the
Python substring test `pat in s`). -/
def charsHasSub (pat : List Char) : List Char → Bool
  | [] => pat.isEmpty
  | c :: rest => pat.isPrefixOf (c :: rest) || charsHasSub pat rest

/-- The Python substring test `pat in s` on strings. -/
def hasSub (s pat : String) : Bool := charsHasSub pat.toList s.toList

/- The literal user-facing messages of `safe_api_call` (fetch.py lines
46-108). -/

def msg400 : String :=
  "Endpoint not available (400 Bad Request) - Feature may not be enabled for your account"

def msg401 : String :=
  "Authentication required (401 Unauthorized) - Please re-authenticate"

def msg403 : String :=
  "Access denied (403 Forbidden) - Account may not have permission"

def msg404 : String :=
  "Endpoint not found (404) - Feature may have been moved or removed"

def msg429 : String :=
  "Rate limit exceeded (429) - Please wait before making more requests"

def msg500 : String :=
  "Server error (500) - Garmin\x27s servers are experiencing issues"

def msg503 : String :=
  "Service unavailable (503) - Garmin\x27s servers are temporarily unavailable"

def msgNoTokens : String :=
  "No valid tokens found. Please login with your email/password to create new tokens."

/-- `safe_api_call(api_method, *args, **kwargs)` (fetch.py lines 30-108).
The wrapped call `api_method(*args, **kwargs)` is modelled by its outcome
`op`.  The result `(success, result, error_message)` is the Python tri-tuple;
an exception not caught by any `except` clause (only `BaseException`-level
ones can escape, since the last clause is `except Exception`) is re-raised,
i.e. returned as `.error`. -/
def safe_api_call {α : Type} (op : Except PyExc α) :
    Except PyExc (Bool × Option α × Option String) :=
  match op with
  | .ok result => .ok (true, some result, none)
  | .error e =>
    match e with
    | .garthHTTPError status_code error_str =>
      if status_code = some 400 || hasSub error_str "400" then
        .ok (false, none, some msg400)
      else if status_code = some 401 || hasSub error_str "401" then
        .ok (false, none, some msg401)
      else if status_code = some 403 || hasSub error_str "403" then
        .ok (false, none, some msg403)
      else if status_code = some 404 || hasSub error_str "404" then
        .ok (false, none, some msg404)
      else if status_code = some 429 || hasSub error_str "429" then
        .ok (false, none, some msg429)
      else if status_code = some 500 || hasSub error_str "500" then
        .ok (false, none, some msg500)
      else if status_code = some 503 || hasSub error_str "503" then
        .ok (false, none, some msg503)
      else
        .ok (false, none, some ("HTTP error: " ++ error_str))
    | .fileNotFoundError => .ok (false, none, some msgNoTokens)
    | .garminConnectAuthenticationError t =>
      .ok (false, none, some ("Authentication issue: " ++ t))
    | .garminConnectConnectionError t =>
      .ok (false, none, some ("Connection issue: " ++ t))
    | .garminConnectTooManyRequestsError t =>
      .ok (false, none, some ("Rate limit exceeded: " ++ t))
    | .keyboardInterrupt => .error .keyboardInterrupt
    | .systemExit n => .error (.systemExit n)
    | e => .ok (false, none, some ("Unexpected error: " ++ e.text))

/-- Whether a wrapped call escaped the `safe_api_call` boundary as a raised
exception instead of returning the tri-tuple. -/
def escapes {α : Type} (r : Except PyExc α) : Bool :=
  match r with
  | .error _ => true
  | .ok _ => false

/-- Python truthiness of an `os.getenv` result: `None` and the empty string
are falsy. -/
def pyTruthyStr : Option String → Bool
  | none => false
  | some s => !(s == "")

/-- `get_credentials()` (fetch.py lines 115-122).  `envEmail`/`envPassword`
are `os.getenv("EMAIL")` / `os.getenv("PASSWORD")`; `cfgEmail`/`cfgPassword`
are the module-level `EMAIL`/`PASSWORD` imported from `auth`.  The local
variables `email` and `password` are assigned only under
`if not os.getenv(...)`; `return email, password` raises `UnboundLocalError`
for the first of them that was never assigned. -/
def get_credentials (envEmail envPassword : Option String)
    (cfgEmail cfgPassword : String) : Except PyExc (String × String) :=
  let email : Option String :=
    if !(pyTruthyStr envEmail) then some cfgEmail else none
  let password : Option String :=
    if !(pyTruthyStr envPassword) then some cfgPassword else none
  match email with
  | none => .error (.unboundLocalError "email")
  | some e =>
    match password with
    | none => .error (.unboundLocalError "password")
    | some p => .ok (e, p)

/-- A Python dict with integer values, as an association list. -/
abbrev IntDict := List (String × Int)

/-- `d.get(key, dflt)` on an integer-valued dict. -/
def dictGet (d : IntDict) (key : String) (dflt : Int) : Int :=
  match d.find? (fun kv => kv.1 == key) with
  | some kv => kv.2
  | none => dflt

/-- `display_spo2(api)` (fetch.py lines 233-247).  `fetchOutcome` is the
outcome of `api.get_spo2_data(today.isoformat())`.  The local
`spo2_avgsleep` is assigned only in the `if success and summary` branch; the
unconditional `print`/`return` of it raises `UnboundLocalError` on every
other path. -/
def display_spo2 (fetchOutcome : Except PyExc IntDict) : Except PyExc Int :=
  match safe_api_call fetchOutcome with
  | .error e => .error e
  | .ok (success, summary, _error_msg) =>
    match success, summary with
    | true, some s =>
      if s.isEmpty then .error (.unboundLocalError "spo2_avgsleep")
      else .ok (dictGet s "avgSleepSpO2" 0)
    | _, _ => .error (.unboundLocalError "spo2_avgsleep")

/-- `d[key] = v` on an integer-valued dict. -/
def dictSet (d : IntDict) (key : String) (v : Int) : IntDict :=
  if d.any (fun kv => kv.1 == key) then
    d.map (fun kv => if kv.1 == key then (kv.1, v) else kv)
  else d ++ [(key, v)]

/-- `spo2wellness(spo2)` (fetch.py lines 264-274): fetch the wellness record
for today from intervals.icu, set its `spO2` field to `spo2`, and put it
back.  The remote record is the parameter `wellness`; the result is the
record as submitted by `wellness_put`. -/
def spo2wellness (wellness : IntDict) (spo2 : Int) : IntDict :=
  dictSet wellness "spO2" spo2

/-- The daily publish path `spo2wellness(display_spo2(api))`
(fetch.py line 317): `display_spo2` runs first and its value, if it returns
one, is pushed to the wellness record. -/
def dailyPublish (fetchOutcome : Except PyExc IntDict) (wellness : IntDict) :
    Except PyExc IntDict :=
  match display_spo2 fetchOutcome with
  | .error e => .error e
  | .ok v => .ok (spo2wellness wellness v)

/-- A naive Python `datetime.datetime` value (no timezone; the strings this
pipeline handles carry none). -/
structure PyDateTime where
  year : Nat
  month : Nat
  day : Nat
  hour : Nat
  minute : Nat
  second : Nat
  microsecond : Nat
deriving DecidableEq

/-- Numeric value of a decimal digit character, `none` for non-digits. -/
def digitVal : Char → Option Nat
  | c => if c.isDigit then some (c.toNat - 48) else none

/-- Parse exactly `n` decimal digits (most significant first) on top of the
accumulator `acc`, returning the value and the remaining characters. -/
def parseNDigits (acc : Nat) : Nat → List Char → Option (Nat × List Char)
  | 0, cs => some (acc, cs)
  | _ + 1, [] => none
  | n + 1, c :: cs =>
    match digitVal c with
    | some d => parseNDigits (acc * 10 + d) n cs
    | none => none

/-- Value of a list of decimal digit characters. -/
def natOfDigits (cs : List Char) : Nat :=
  cs.foldl (fun a c => a * 10 + (c.toNat - 48)) 0

/-- Gregorian leap year, as Python `calendar.isleap`. -/
def isLeap (y : Nat) : Bool :=
  (y % 4 == 0 && y % 100 != 0) || (y % 400 == 0)

/-- Length of a month in the proleptic Gregorian calendar (callers ensure
`1 <= m <= 12`). -/
def daysInMonth (y m : Nat) : Nat :=
  if m == 2 then (if isLeap y then 29 else 28)
  else if m == 4 || m == 6 || m == 9 || m == 11 then 30
  else 31

/-- A fractional-seconds suffix: one to six decimal digits, scaled to
microseconds. -/
def parseFracMicros (cs : List Char) : Option Nat :=
  if cs.isEmpty then none
  else if 6 < cs.length then none
  else if cs.all Char.isDigit then some (natOfDigits cs * 10 ^ (6 - cs.length))
  else none

/-- The `HH[:MM[:SS[.ffffff]]]` time part of an ISO-8601 string; must consume
the whole input. -/
def parseTimePart (cs : List Char) : Option (Nat × Nat × Nat × Nat) :=
  match parseNDigits 0 2 cs with
  | none => none
  | some (hh, rest) =>
    match rest with
    | [] => some (hh, 0, 0, 0)
    | ':' :: rest2 =>
      match parseNDigits 0 2 rest2 with
      | none => none
      | some (mm, rest3) =>
        match rest3 with
        | [] => some (hh, mm, 0, 0)
        | ':' :: rest4 =>
          match parseNDigits 0 2 rest4 with
          | none => none
          | some (ss, rest5) =>
            match rest5 with
            | [] => some (hh, mm, ss, 0)
            | '.' :: rest6 =>
              match parseFracMicros rest6 with
              | some usec => some (hh, mm, ss, usec)
              | none => none
            | _ => none
        | _ => none
    | _ => none

/-- Model of Python `datetime.datetime.fromisoformat` on timezone-naive
input: the `YYYY-MM-DD[*HH[:MM[:SS[.f+]]]]` grammar (`*` any single
separator character), with calendar/clock range validation as done by the
`datetime` constructor.  Strings outside this grammar (in particular any
bare digit string, such as an epoch-millisecond count) raise `ValueError`,
modelled as `none`. -/
def fromisoformat (s : String) : Option PyDateTime :=
  match parseNDigits 0 4 s.toList with
  | none => none
  | some (y, rest0) =>
    match rest0 with
    | '-' :: rest1 =>
      match parseNDigits 0 2 rest1 with
      | none => none
      | some (m, rest2) =>
        match rest2 with
        | '-' :: rest3 =>
          match parseNDigits 0 2 rest3 with
          | none => none
          | some (d, rest4) =>
            let valid := fun (hh mm ss usec : Nat) =>
              if 1 ≤ y ∧ 1 ≤ m ∧ m ≤ 12 ∧ 1 ≤ d ∧ d ≤ daysInMonth y m ∧
                  hh ≤ 23 ∧ mm ≤ 59 ∧ ss ≤ 59 then
                some (PyDateTime.mk y m d hh mm ss usec)
              else none
            match rest4 with
            | [] => valid 0 0 0 0
            | _sep :: timeCs =>
              match parseTimePart timeCs with
              | some (hh, mm, ss, usec) => valid hh mm ss usec
              | none => none
        | _ => none
    | _ => none

/-- Days since 1970-01-01 of a proleptic-Gregorian date (the classic
days-from-civil algorithm; division is truncated as in Lean `Int`). -/
def daysFromCivil (y m d : Int) : Int :=
  let y' := if m ≤ 2 then y - 1 else y
  let era := (if 0 ≤ y' then y' else y' - 399) / 400
  let yoe := y' - era * 400
  let mp := (m + 9) % 12
  let doy := (153 * mp + 2) / 5 + d - 1
  let doe := yoe * 365 + yoe / 4 - yoe / 100 + doy
  era * 146097 + doe - 719468

/-- The instant of a naive datetime, as milliseconds since the Unix epoch
(UTC reading). -/
def pyDateTimeToEpochMs (dt : PyDateTime) : Int :=
  daysFromCivil dt.year dt.month dt.day * 86400000 +
    (dt.hour : Int) * 3600000 + (dt.minute : Int) * 60000 +
    (dt.second : Int) * 1000 + (dt.microsecond : Int) / 1000

/-- Modelled from the spec: "standard epoch-millisecond semantics" for a
string (spec section 8, property 2) — a string of decimal digits denoting a
count of milliseconds since the Unix epoch; any other string has no
epoch-millisecond reading. -/
def epochMillisSemantics (s : String) : Option Int :=
  if s.toList ≠ [] ∧ s.toList.all Char.isDigit then
    some (natOfDigits s.toList)
  else none

/-- The Python slice `s[:-2]` (fetch.py line 292): drop the last two
characters; a string of length at most two becomes empty. -/
def pyDropRight2 (s : String) : String := s.dropRight 2

/-- One entry of the `wellnessEpochSPO2DataDTOList` of a sleep-data
response: the fields of it that fetch.py reads. -/
structure SpoRec where
  epochTimestamp : String
  spo2Reading : Int
  readingConfidence : Int
deriving DecidableEq

/-- A row of the sqlite `spo2` table: `(ts.timestamp(), spo2Reading,
readingConfidence)`, the stored instant kept as the parsed datetime
(`.timestamp()` is an injective encoding of it at a fixed UTC offset). -/
abbrev Row := PyDateTime × Int × Int

/-- A sleep-data response dict; only list-of-record values matter to
fetch.py. -/
abbrev SleepSummary := List (String × List SpoRec)

/-- the call of get with key wellnessEpochSPO2DataDTOList and default empty dict on `sleepsummary` (fetch.py line
288); iterating the `{}` default yields nothing, like the empty list. -/
def wellnessList (sleepsummary : SleepSummary) : List SpoRec :=
  match sleepsummary.find? (fun kv => kv.1 == "wellnessEpochSPO2DataDTOList") with
  | some kv => kv.2
  | none => []

/-- State of the `spo2.db3` database: whether the `spo2` table exists, and
its rows. -/
structure DbState where
  hasTable : Bool
  rows : List Row
deriving DecidableEq

/-- `sqlite3.connect("spo2.db3")` against a fresh working directory:
connecting creates at most an empty database file, never the `spo2` table. -/
def freshDb : DbState := DbState.mk false []

/-- Modelled from the spec: the effect of `INSERT OR IGNORE INTO spo2 VALUES
(?, ?, ?)` under the storage contract of spec sections 3 and 6 (insert-if-
absent keyed on the full row tuple); the DDL of the table, which carries the
uniqueness constraint, is not part of this repository. -/
def insertOrIgnore (rows : List Row) (r : Row) : List Row :=
  if r ∈ rows then rows else rows ++ [r]

/-- The `for rec in sleep_wellness` body (fetch.py lines 291-295): for each
record, parse `rec["epochTimestamp"][:-2]` with `fromisoformat` (a failure
raises `ValueError`), then execute the insert (which raises
`sqlite3.OperationalError` when the `spo2` table does not exist).  Either
exception escapes `populateSpoList`, which has no handler. -/
def insertSpo2Records (db : DbState) : List SpoRec → Except PyExc DbState
  | [] => .ok db
  | rec :: rest =>
    match fromisoformat (pyDropRight2 rec.epochTimestamp) with
    | none =>
      .error (.valueError
        ("Invalid isoformat string: \x27" ++ pyDropRight2 rec.epochTimestamp ++ "\x27"))
    | some ts =>
      if db.hasTable then
        insertSpo2Records
          (DbState.mk db.hasTable
            (insertOrIgnore db.rows (ts, rec.spo2Reading, rec.readingConfidence)))
          rest
      else .error (.operationalError "no such table: spo2")

/-- One iteration body of the `while reqday <= today` loop (fetch.py lines
283-302): fetch sleep data for the day through `safe_api_call`; when the call
succeeds with a truthy dict, run the insert loop over its SpO2 record list;
in every non-raising case fall through (both branches of the trailing
`if not success` only print and advance the cursor). -/
def processDay (fetch : Int → Except PyExc SleepSummary) (reqday : Int)
    (db : DbState) : Except PyExc DbState :=
  match safe_api_call (fetch reqday) with
  | .error e => .error e
  | .ok (success, sleepsummary, _error_msg) =>
    match success, sleepsummary with
    | true, some summary =>
      if summary.isEmpty then .ok db
      else insertSpo2Records db (wellnessList summary)
    | _, _ => .ok db

/-- The `while reqday <= today` loop of `populateSpoList` (fetch.py lines
282-302).  Returns the final database state and the list of days visited
(the days printed by `"Querying data for: ..."`, one per iteration); an
escaping exception aborts the loop. -/
def populateLoop (fetch : Int → Except PyExc SleepSummary) (today : Int)
    (reqday : Int) (db : DbState) : Except PyExc (DbState × List Int) :=
  if _h : reqday ≤ today then
    match processDay fetch reqday db with
    | .error e => .error e
    | .ok db1 =>
      match populateLoop fetch today (reqday + 1) db1 with
      | .error e => .error e
      | .ok (dbFinal, visited) => .ok (dbFinal, reqday :: visited)
  else .ok (db, [])
termination_by (today + 1 - reqday).toNat
decreasing_by omega

/-- `populateSpoList(api)` (fetch.py lines 278-304).  Days are modelled as
integers (`datetime.date` ordinals): `startfrom = today - DAYS_TO_FETCH`
(line 27) and `reqday += datetime.timedelta(days=1)` is `+ 1`.  `fetch d`
is the outcome of `api.get_sleep_data(reqday.isoformat())` for day `d`;
`db` is the content of `spo2.db3` at connect time. -/
def populateSpoList (fetch : Int → Except PyExc SleepSummary)
    (startfrom today : Int) (db : DbState) : Except PyExc (DbState × List Int) :=
  populateLoop fetch today startfrom db

/-- The inclusive day range `[d, t]`, one step per day — the reference
cursor walk of the backfill loop. -/
def dayRange (d t : Int) : List Int :=
  if _h : d ≤ t then d :: dayRange (d + 1) t else []
termination_by (t + 1 - d).toNat
decreasing_by omega

/-- `result1, result2 = garmin.login()`: whether `result1 == "needs_mfa"`
(the opaque `result2` is threaded to `resume_login` and not modelled). -/
structure LoginRes where
  needsMfa : Bool
deriving DecidableEq

/-- The external world of `init_api`: outcomes of every call it can make.
`credLogin k` and `mfaResume k` are the outcomes of `garmin.login()` and
`garmin.resume_login(...)` on the k-th iteration of the credential loop;
`envEmail`/`envPassword` and `cfgEmail`/`cfgPassword` feed
`get_credentials`.  `input()` and `garth.dump` are assumed not to raise. -/
structure Env where
  tokenLogin : Except PyExc Unit
  credLogin : Nat → Except PyExc LoginRes
  mfaResume : Nat → Except PyExc Unit
  envEmail : Option String
  envPassword : Option String
  cfgEmail : String
  cfgPassword : String

/-- Observable side effects of `init_api`, in order:
`readCredentials` = a call of `get_credentials()`, `promptMFA` = the
`input("Please enter your MFA code: ")` prompt, `dumpTokens` = the
`garmin.garth.dump(...)` token write. -/
inductive Effect where
  | readCredentials
  | promptMFA
  | dumpTokens
deriving DecidableEq

/-- Result of `init_api`: an authenticated client (tagged by which login
path produced it), the `return None` paths, an escaping exception
(`sys.exit(1)` is the escaping `SystemExit 1`), or loop fuel exhaustion
(the unbounded retry loop is still running). -/
inductive InitResult where
  | client (fromTokens : Bool)
  | noApi
  | exc (e : PyExc)
  | spin
deriving DecidableEq

/-- Dispatch of an exception raised inside the body of the credential
`while True` loop against its outer `except` clauses (fetch.py lines
212-230): `GarminConnectAuthenticationError` continues the loop;
`FileNotFoundError`, `GarthHTTPError`, `GarminConnectConnectionError` and
`requests.exceptions.HTTPError` return `None`; `KeyboardInterrupt` returns
`None`; anything else escapes.  `tr` is the effect trace of this iteration so
far and `next` the continuation of the loop. -/
def outerCatch (e : PyExc) (tr : List Effect)
    (next : InitResult × List Effect) : InitResult × List Effect :=
  match e with
  | .garminConnectAuthenticationError _ => (next.1, tr ++ next.2)
  | .fileNotFoundError => (.noApi, tr)
  | .garthHTTPError _ _ => (.noApi, tr)
  | .garminConnectConnectionError _ => (.noApi, tr)
  | .requestsHTTPError _ => (.noApi, tr)
  | .keyboardInterrupt => (.noApi, tr)
  | e => (.exc e, tr)

/-- Classification of an MFA resume failure as rate-limited, exactly as
fetch.py line 188 tests it: `"429" in error_str and "Too Many Requests" in
error_str`. -/
def mfaRateLimited (error_str : String) : Bool :=
  hasSub error_str "429" && hasSub error_str "Too Many Requests"

/-- Classification of an MFA resume failure as invalid-code, exactly as
fetch.py line 192 tests it: `"401" in error_str or "403" in error_str`. -/
def mfaInvalidCode (error_str : String) : Bool :=
  hasSub error_str "401" || hasSub error_str "403"

/-- The credential `while True` loop of `init_api` (fetch.py lines
164-230), with `k` the iteration index and explicit fuel for the unbounded
retries.  One iteration: `get_credentials` (an `UnboundLocalError` from it
is not matched by any `except` clause and escapes), `garmin.login()`, the
MFA sub-protocol when signalled, then `garth.dump` and return. -/
def initApiLoop (env : Env) (k : Nat) : Nat → InitResult × List Effect
  | 0 => (.spin, [])
  | fuel + 1 =>
    match get_credentials env.envEmail env.envPassword env.cfgEmail env.cfgPassword with
    | .error e => outerCatch e [.readCredentials] (initApiLoop env (k + 1) fuel)
    | .ok _creds =>
      match env.credLogin k with
      | .error e => outerCatch e [.readCredentials] (initApiLoop env (k + 1) fuel)
      | .ok res =>
        if res.needsMfa then
          match env.mfaResume k with
          | .ok _ => (.client false, [.readCredentials, .promptMFA, .dumpTokens])
          | .error (.garthHTTPError _sc error_str) =>
            if mfaRateLimited error_str then
              (.exc (.systemExit 1), [.readCredentials, .promptMFA])
            else if mfaInvalidCode error_str then
              let next := initApiLoop env (k + 1) fuel
              (next.1, .readCredentials :: .promptMFA :: next.2)
            else
              (.exc (.systemExit 1), [.readCredentials, .promptMFA])
          | .error (.garthException _t) =>
            let next := initApiLoop env (k + 1) fuel
            (next.1, .readCredentials :: .promptMFA :: next.2)
          | .error e =>
            outerCatch e [.readCredentials, .promptMFA] (initApiLoop env (k + 1) fuel)
        else (.client false, [.readCredentials, .dumpTokens])

/-- `init_api()` (fetch.py lines 125-230).  First `garmin.login(tokenstore)`
with the persisted tokens: success returns the client at once (line 153);
a failure of type `FileNotFoundError`, `GarthHTTPError`,
`GarminConnectAuthenticationError` or `GarminConnectConnectionError` falls
through to the credential loop (lines 155-161); any other exception
escapes.  The token-directory listing before the `try` has no effect on the
result and is not modelled. -/
def init_api (env : Env) (fuel : Nat) : InitResult × List Effect :=
  match env.tokenLogin with
  | .ok _ => (.client true, [])
  | .error e =>
    match e with
    | .fileNotFoundError => initApiLoop env 0 fuel
    | .garthHTTPError _ _ => initApiLoop env 0 fuel
    | .garminConnectAuthenticationError _ => initApiLoop env 0 fuel
    | .garminConnectConnectionError _ => initApiLoop env 0 fuel
    | e => (.exc e, [])

/-- Exit code of the process given the outcome of `main()` under the
`__main__` guard (fetch.py lines 321-327): normal completion exits 0; a
`KeyboardInterrupt` is caught, printed, and the script ends with 0; any
other `Exception` is caught by `except Exception`, printed, and the script
ends with 0; a `SystemExit n` (from `sys.exit(n)`) matches neither clause
and terminates the interpreter with status `n`. -/
def programExitCode : Except PyExc Unit → Nat
  | .ok _ => 0
  | .error .keyboardInterrupt => 0
  | .error (.systemExit n) => n
  | .error _ => 0

end GarminSpo2

namespace GarminSpo2

/-! Helper lemmas about the embedded operations. -/

theorem string_append_ne_empty (pre s : String) (h : pre.length ≠ 0) :
    pre ++ s ≠ "" := by
  intro hc
  have hl := congrArg String.length hc
  rw [String.length_append] at hl
  have h0 : ("" : String).length = 0 := rfl
  rw [h0] at hl
  omega

theorem safe_api_call_msg_iff {α : Type} (op : Except PyExc α)
    (s : Bool) (p : Option α) (m : Option String)
    (h : safe_api_call op = .ok (s, p, m)) : m.isSome ↔ s = false := by
  cases op with
  | ok r =>
    simp only [safe_api_call, Except.ok.injEq, Prod.mk.injEq] at h
    obtain ⟨hs, -, hm⟩ := h
    subst hs
    subst hm
    simp
  | error e =>
    cases e <;>
      simp only [safe_api_call] at h <;>
      (try split_ifs at h) <;>
      first
      | (simp only [Except.ok.injEq, Prod.mk.injEq] at h
         obtain ⟨hs, -, hm⟩ := h
         subst hs
         subst hm
         simp)
      | simp at h

/-- C1: on a successful wrapped call `safe_api_call` returns success=true
with the payload and no message; on a `GarthHTTPError` it returns
success=false, no payload, and the message of the first code among
400, 401, 403, 404, 429, 500, 503 matched (in that priority order) by the
structured status code or by a substring of the textual representation,
falling back to the generic http-error message; every such message is
non-empty; and over all wrapped outcomes the error message is present iff
success is false. -/
theorem C1_error_classification (status_code : Option Nat) (error_str : String) :
    (∀ (r : Nat), safe_api_call (.ok r) = .ok (true, some r, none)) ∧
    safe_api_call (α := Nat) (.error (.garthHTTPError status_code error_str)) =
      .ok (false, none, some (
        if status_code = some 400 || hasSub error_str "400" then msg400
        else if status_code = some 401 || hasSub error_str "401" then msg401
        else if status_code = some 403 || hasSub error_str "403" then msg403
        else if status_code = some 404 || hasSub error_str "404" then msg404
        else if status_code = some 429 || hasSub error_str "429" then msg429
        else if status_code = some 500 || hasSub error_str "500" then msg500
        else if status_code = some 503 || hasSub error_str "503" then msg503
        else "HTTP error: " ++ error_str)) ∧
    (msg400 ≠ "" ∧ msg401 ≠ "" ∧ msg403 ≠ "" ∧ msg404 ≠ "" ∧
      msg429 ≠ "" ∧ msg500 ≠ "" ∧ msg503 ≠ "" ∧ "HTTP error: " ++ error_str ≠ "") ∧
    (∀ (op : Except PyExc Nat) (s : Bool) (p : Option Nat) (m : Option String),
      safe_api_call op = .ok (s, p, m) → (m.isSome ↔ s = false)) := by
  refine ⟨fun r => rfl, ?_, ?_, fun op s p m h => safe_api_call_msg_iff op s p m h⟩
  · simp only [safe_api_call]
    split_ifs <;> rfl
  · refine ⟨by decide, by decide, by decide, by decide, by decide, by decide, by decide, ?_⟩
    exact string_append_ne_empty "HTTP error: " error_str (by decide)

/-- Witness for C1 at concrete inputs: a 429 error is mapped to the
rate-limited message, and its message presence matches success=false. -/
theorem C1_witness :
    safe_api_call (α := Nat)
        (.error (.garthHTTPError (some 429) "429 Client Error: Too Many Requests")) =
      .ok (false, none, some msg429) ∧
    (Option.isSome (some msg429) ↔ false = false) := by
  constructor
  · have h := (C1_error_classification (some 429) "429 Client Error: Too Many Requests").2.1
    rw [h]
    decide
  · exact (C1_error_classification (some 429) "x").2.2.2
      (.error (.garthHTTPError (some 429) "x")) false none (some msg429) (by decide)

/-- C2 (code_bug evidence): when the current-day summary fetch fails, or
succeeds with a falsy (empty) summary, `display_spo2` raises
`UnboundLocalError` on `spo2_avgsleep` instead of returning zero, and the
publish to the wellness record is aborted; only a truthy summary without
the `avgSleepSpO2` field actually yields the zero default. -/
theorem C2_zero_fallback_bug :
    display_spo2 (.error (.garthHTTPError (some 404) "404 Client Error")) =
      .error (.unboundLocalError "spo2_avgsleep") ∧
    dailyPublish (.error (.garthHTTPError (some 404) "404 Client Error")) [("id", 7)] =
      .error (.unboundLocalError "spo2_avgsleep") ∧
    display_spo2 (.ok []) = .error (.unboundLocalError "spo2_avgsleep") ∧
    display_spo2 (.ok [("calendarDate", 20230501)]) = .ok 0 ∧
    dailyPublish (.ok [("calendarDate", 20230501)]) [("id", 7)] =
      .ok [("id", 7), ("spO2", 0)] := by
  decide

/-- C3 (code_bug evidence): with the `EMAIL` environment variable set,
`get_credentials` raises `UnboundLocalError` on `email` (the env value
never takes precedence, the local is simply never assigned); likewise for
`PASSWORD`; only when both env variables are unset does it return the
configured pair. -/
theorem C3_credentials_bug :
    get_credentials (some "user@example.com") none "cfg@example.com" "cfgpw" =
      .error (.unboundLocalError "email") ∧
    get_credentials none (some "secret") "cfg@example.com" "cfgpw" =
      .error (.unboundLocalError "password") ∧
    get_credentials none none "cfg@example.com" "cfgpw" =
      .ok ("cfg@example.com", "cfgpw") := by
  decide

/-- C7 as stated is false: a wrapped operation that raises
`KeyboardInterrupt` (a `BaseException` that `except Exception` does not
catch) escapes `safe_api_call` as a raised exception; no tri-tuple is
returned. -/
theorem C7_counterexample :
    escapes (safe_api_call (α := Unit) (.error .keyboardInterrupt)) = true ∧
    safe_api_call (α := Unit) (.error .keyboardInterrupt) = .error .keyboardInterrupt := by
  decide

/-- C7 amended: whenever the wrapped operation returns a result or raises an
exception deriving from `Exception`, `safe_api_call` terminates normally
with the tri-tuple; only `BaseException`-level signals (`KeyboardInterrupt`,
`SystemExit`) escape the boundary. -/
theorem C7_amended {α : Type} (op : Except PyExc α)
    (h : ∀ e, op = .error e → e.isException = true) :
    escapes (safe_api_call op) = false := by
  cases op with
  | ok r => rfl
  | error e =>
    have he := h e rfl
    cases e <;>
      first
      | (simp only [safe_api_call, escapes]
         split_ifs <;> rfl)
      | rfl
      | simp [PyExc.isException] at he

/-- Witness for C7 amended: a library-level `GarthException` is converted to
the tri-tuple, not raised. -/
theorem C7_amended_witness :
    escapes (safe_api_call (α := Unit) (.error (.garthException "boom"))) = false :=
  C7_amended _ (fun _e he => by cases he; rfl)

theorem mem_insertOrIgnore_self (rows : List Row) (r : Row) :
    r ∈ insertOrIgnore rows r := by
  unfold insertOrIgnore
  split_ifs with h
  · exact h
  · simp

theorem subset_insertOrIgnore (rows : List Row) (r : Row) :
    rows ⊆ insertOrIgnore rows r := by
  unfold insertOrIgnore
  split_ifs with h
  · exact fun x hx => hx
  · exact fun x hx => List.mem_append_left _ hx

theorem insertOrIgnore_of_mem {rows : List Row} {r : Row} (h : r ∈ rows) :
    insertOrIgnore rows r = rows := by
  unfold insertOrIgnore
  exact if_pos h

theorem mem_of_mem_insertOrIgnore {rows : List Row} {r x : Row}
    (h : x ∈ insertOrIgnore rows r) : x ∈ rows ∨ x = r := by
  unfold insertOrIgnore at h
  split_ifs at h with hr
  · exact .inl h
  · rcases List.mem_append.1 h with h | h
    · exact .inl h
    · simp only [List.mem_singleton] at h
      exact .inr h

theorem insertSpo2Records_hasTable (recs : List SpoRec) : ∀ (db db' : DbState),
    insertSpo2Records db recs = .ok db' → db'.hasTable = db.hasTable := by
  induction recs with
  | nil =>
    intro db db' h
    simp only [insertSpo2Records] at h
    injection h with h
    rw [← h]
  | cons rec rest ih =>
    intro db db' h
    simp only [insertSpo2Records] at h
    split at h
    · simp at h
    · split at h
      · simpa using ih _ _ h
      · simp at h

theorem insertSpo2Records_subset (recs : List SpoRec) : ∀ (db db' : DbState),
    insertSpo2Records db recs = .ok db' → db.rows ⊆ db'.rows := by
  induction recs with
  | nil =>
    intro db db' h
    simp only [insertSpo2Records] at h
    injection h with h
    rw [← h]
    exact fun x hx => hx
  | cons rec rest ih =>
    intro db db' h
    simp only [insertSpo2Records] at h
    split at h
    · simp at h
    · split at h
      · exact fun x hx => ih _ _ h (subset_insertOrIgnore _ _ hx)
      · simp at h

theorem insertSpo2Records_complete (recs : List SpoRec) : ∀ (db db' : DbState),
    insertSpo2Records db recs = .ok db' →
    ∀ rec ∈ recs, ∃ dt, fromisoformat (pyDropRight2 rec.epochTimestamp) = some dt ∧
      (dt, rec.spo2Reading, rec.readingConfidence) ∈ db'.rows := by
  induction recs with
  | nil =>
    intro db db' _h rec hrec
    simp at hrec
  | cons rec0 rest ih =>
    intro db db' h rec hrec
    simp only [insertSpo2Records] at h
    split at h
    · simp at h
    · rename_i ts hts
      split at h
      · rcases List.mem_cons.1 hrec with hrec | hrec
        · subst hrec
          exact ⟨ts, hts, insertSpo2Records_subset _ _ _ h
            (mem_insertOrIgnore_self _ _)⟩
        · exact ih _ _ h rec hrec
      · simp at h

theorem insertSpo2Records_sound (recs : List SpoRec) : ∀ (db db' : DbState),
    insertSpo2Records db recs = .ok db' →
    ∀ r ∈ db'.rows, r ∈ db.rows ∨ ∃ rec, rec ∈ recs ∧
      fromisoformat (pyDropRight2 rec.epochTimestamp) = some r.1 ∧
      r.2.1 = rec.spo2Reading ∧ r.2.2 = rec.readingConfidence := by
  induction recs with
  | nil =>
    intro db db' h r hr
    simp only [insertSpo2Records] at h
    injection h with h
    rw [← h] at hr
    exact .inl hr
  | cons rec0 rest ih =>
    intro db db' h r hr
    simp only [insertSpo2Records] at h
    split at h
    · simp at h
    · rename_i ts hts
      split at h
      · rcases ih _ _ h r hr with hmem | ⟨rec, hrec, hrest⟩
        · simp only at hmem
          rcases mem_of_mem_insertOrIgnore hmem with hmem | hmem
          · exact .inl hmem
          · subst hmem
            exact .inr ⟨rec0, List.mem_cons_self .., hts, rfl, rfl⟩
        · exact .inr ⟨rec, List.mem_cons_of_mem _ hrec, hrest⟩
      · simp at h

theorem insertSpo2Records_table_true (rec : SpoRec) (rest : List SpoRec)
    (db db' : DbState) (h : insertSpo2Records db (rec :: rest) = .ok db') :
    db.hasTable = true := by
  simp only [insertSpo2Records] at h
  split at h
  · simp at h
  · split at h
    · rename_i hT
      exact hT
    · simp at h

theorem insertSpo2Records_absorb (recs : List SpoRec) : ∀ (db : DbState),
    (recs ≠ [] → db.hasTable = true) →
    (∀ rec ∈ recs, ∃ dt, fromisoformat (pyDropRight2 rec.epochTimestamp) = some dt ∧
      (dt, rec.spo2Reading, rec.readingConfidence) ∈ db.rows) →
    insertSpo2Records db recs = .ok db := by
  induction recs with
  | nil =>
    intro db _hT _hall
    rfl
  | cons rec0 rest ih =>
    intro db hT hall
    obtain ⟨tbl, rows⟩ := db
    obtain ⟨dt, hdt, hmem⟩ := hall rec0 (List.mem_cons_self ..)
    have hTrue : tbl = true := hT (by simp)
    subst hTrue
    simp only at hmem
    simp only [insertSpo2Records, hdt, if_true, insertOrIgnore_of_mem hmem]
    exact ih (DbState.mk true rows)
      (fun _ => rfl)
      (fun rec hrec => hall rec (List.mem_cons_of_mem _ hrec))

theorem processDay_hasTable (fetch : Int → Except PyExc SleepSummary) (d : Int)
    (db db' : DbState) (h : processDay fetch d db = .ok db') :
    db'.hasTable = db.hasTable := by
  unfold processDay at h
  split at h
  · simp at h
  · split at h
    · split at h
      · injection h with h
        rw [← h]
      · exact insertSpo2Records_hasTable _ _ _ h
    · injection h with h
      rw [← h]

theorem processDay_subset (fetch : Int → Except PyExc SleepSummary) (d : Int)
    (db db' : DbState) (h : processDay fetch d db = .ok db') :
    db.rows ⊆ db'.rows := by
  unfold processDay at h
  split at h
  · simp at h
  · split at h
    · split at h
      · injection h with h
        rw [← h]
        exact fun x hx => hx
      · exact insertSpo2Records_subset _ _ _ h
    · injection h with h
      rw [← h]
      exact fun x hx => hx

theorem processDay_absorb (fetch : Int → Except PyExc SleepSummary) (d : Int)
    (db dbm db2 : DbState) (h : processDay fetch d db = .ok dbm)
    (hsub : dbm.rows ⊆ db2.rows) (hT : db2.hasTable = dbm.hasTable) :
    processDay fetch d db2 = .ok db2 := by
  cases hsc : safe_api_call (fetch d) with
  | error e =>
    simp only [processDay, hsc] at h
    exact (Except.noConfusion h)
  | ok t =>
    obtain ⟨s, p, m⟩ := t
    simp only [processDay, hsc] at h ⊢
    cases s with
    | false => rfl
    | true =>
      cases p with
      | none => rfl
      | some summary =>
        simp only at h ⊢
        split_ifs at h ⊢ with hemp
        · rfl
        · cases hw : wellnessList summary with
          | nil => rfl
          | cons rec rest =>
            rw [hw] at h
            have htbl : db.hasTable = true :=
              insertSpo2Records_table_true _ _ _ _ h
            have hT2 : db2.hasTable = true := by
              rw [hT, insertSpo2Records_hasTable _ _ _ h, htbl]
            exact insertSpo2Records_absorb _ _ (fun _ => hT2)
              (fun r hr => by
                obtain ⟨dt, hdt, hmem⟩ := insertSpo2Records_complete _ _ _ h r hr
                exact ⟨dt, hdt, hsub hmem⟩)

/-- A day on which the backfill loop body performs no insert and raises
nothing: the wrapped fetch returns the tri-tuple, and in the
success-and-truthy case the SpO2 record list is empty. -/
def noInsertDay (fetch : Int → Except PyExc SleepSummary) (d : Int) : Bool :=
  match safe_api_call (fetch d) with
  | .error _ => false
  | .ok (success, payload, _msg) =>
    match success, payload with
    | true, some summary => summary.isEmpty || (wellnessList summary).isEmpty
    | _, _ => true

theorem processDay_noInsert (fetch : Int → Except PyExc SleepSummary) (d : Int)
    (db : DbState) (hq : noInsertDay fetch d = true) :
    processDay fetch d db = .ok db := by
  unfold noInsertDay at hq
  cases hsc : safe_api_call (fetch d) with
  | error e =>
    simp only [hsc] at hq
    exact absurd hq (by simp)
  | ok t =>
    obtain ⟨s, p, m⟩ := t
    simp only [hsc] at hq
    simp only [processDay, hsc]
    cases s with
    | false => rfl
    | true =>
      cases p with
      | none => rfl
      | some summary =>
        simp only at hq ⊢
        split_ifs with hemp
        · rfl
        · have hempF : List.isEmpty summary = false := by
            simpa using hemp
          rw [hempF] at hq
          simp only [Bool.false_or, List.isEmpty_iff] at hq
          rw [hq]
          rfl

theorem populateLoop_hasTable_subset (fetch : Int → Except PyExc SleepSummary)
    (t : Int) : ∀ (n : Nat) (d : Int) (db db' : DbState) (v : List Int),
    (t + 1 - d).toNat ≤ n → populateLoop fetch t d db = .ok (db', v) →
    db'.hasTable = db.hasTable ∧ db.rows ⊆ db'.rows := by
  intro n
  induction n with
  | zero =>
    intro d db db' v hn h
    have hd : ¬ d ≤ t := by omega
    unfold populateLoop at h
    rw [dif_neg hd] at h
    injection h with h
    simp only [Prod.mk.injEq] at h
    rw [← h.1]
    exact ⟨rfl, fun x hx => hx⟩
  | succ n ih =>
    intro d db db' v hn h
    unfold populateLoop at h
    by_cases hd : d ≤ t
    · rw [dif_pos hd] at h
      split at h
      · simp at h
      · rename_i db1 hp
        split at h
        · simp at h
        · rename_i dbf vis hrec
          injection h with h
          simp only [Prod.mk.injEq] at h
          obtain ⟨hdb, -⟩ := h
          rw [← hdb]
          have hrest := ih (d + 1) db1 dbf vis (by omega) hrec
          exact ⟨hrest.1.trans (processDay_hasTable _ _ _ _ hp),
            fun x hx => hrest.2 (processDay_subset _ _ _ _ hp hx)⟩
    · rw [dif_neg hd] at h
      injection h with h
      simp only [Prod.mk.injEq] at h
      rw [← h.1]
      exact ⟨rfl, fun x hx => hx⟩

theorem populateLoop_visits (fetch : Int → Except PyExc SleepSummary)
    (t : Int) : ∀ (n : Nat) (d : Int) (db db' : DbState) (v : List Int),
    (t + 1 - d).toNat ≤ n → populateLoop fetch t d db = .ok (db', v) →
    v = dayRange d t := by
  intro n
  induction n with
  | zero =>
    intro d db db' v hn h
    have hd : ¬ d ≤ t := by omega
    unfold populateLoop at h
    rw [dif_neg hd] at h
    injection h with h
    simp only [Prod.mk.injEq] at h
    unfold dayRange
    rw [dif_neg hd]
    exact h.2.symm
  | succ n ih =>
    intro d db db' v hn h
    unfold populateLoop at h
    by_cases hd : d ≤ t
    · rw [dif_pos hd] at h
      split at h
      · simp at h
      · rename_i db1 hp
        split at h
        · simp at h
        · rename_i dbf vis hrec
          injection h with h
          simp only [Prod.mk.injEq] at h
          obtain ⟨-, hv⟩ := h
          unfold dayRange
          rw [dif_pos hd, ← hv, ih (d + 1) db1 dbf vis (by omega) hrec]
    · rw [dif_neg hd] at h
      injection h with h
      simp only [Prod.mk.injEq] at h
      unfold dayRange
      rw [dif_neg hd]
      exact h.2.symm

theorem populateLoop_absorb (fetch : Int → Except PyExc SleepSummary)
    (t : Int) : ∀ (n : Nat) (d : Int) (db db' : DbState) (v : List Int),
    (t + 1 - d).toNat ≤ n → populateLoop fetch t d db = .ok (db', v) →
    populateLoop fetch t d db' = .ok (db', v) := by
  intro n
  induction n with
  | zero =>
    intro d db db' v hn h
    have hd : ¬ d ≤ t := by omega
    unfold populateLoop at h
    rw [dif_neg hd] at h
    injection h with h
    simp only [Prod.mk.injEq] at h
    unfold populateLoop
    rw [dif_neg hd, h.2]
  | succ n ih =>
    intro d db db' v hn h
    unfold populateLoop at h
    by_cases hd : d ≤ t
    · rw [dif_pos hd] at h
      split at h
      · simp at h
      · rename_i db1 hp
        split at h
        · simp at h
        · rename_i dbf vis hrec
          injection h with h
          simp only [Prod.mk.injEq] at h
          obtain ⟨hdb, hv⟩ := h
          rw [← hdb, ← hv]
          have hrest := populateLoop_hasTable_subset fetch t n (d + 1) db1 dbf vis
            (by omega) hrec
          have hp2 : processDay fetch d dbf = .ok dbf :=
            processDay_absorb fetch d db db1 dbf hp hrest.2 hrest.1
          have hrec2 := ih (d + 1) db1 dbf vis (by omega) hrec
          unfold populateLoop
          rw [dif_pos hd]
          simp only [hp2, hrec2]
    · rw [dif_neg hd] at h
      injection h with h
      simp only [Prod.mk.injEq] at h
      unfold populateLoop
      rw [dif_neg hd, h.2]

theorem dayRange_eq_map : ∀ (n : Nat) (d t : Int), (t + 1 - d).toNat ≤ n →
    dayRange d t = (List.range (t + 1 - d).toNat).map (fun i : Nat => d + (i : Int)) := by
  intro n
  induction n with
  | zero =>
    intro d t hn
    have hd : ¬ d ≤ t := by omega
    have h0 : (t + 1 - d).toNat = 0 := by omega
    unfold dayRange
    rw [dif_neg hd, h0]
    rfl
  | succ n ih =>
    intro d t hn
    by_cases hd : d ≤ t
    · have hk : (t + 1 - d).toNat = (t + 1 - (d + 1)).toNat + 1 := by omega
      unfold dayRange
      rw [dif_pos hd, ih (d + 1) t (by omega), hk, List.range_succ_eq_map]
      simp only [List.map_cons, List.map_map]
      congr 1
      · simp
      · apply List.map_congr_left
        intro i _
        simp only [Function.comp_apply]
        push_cast
        ring
    · have h0 : (t + 1 - d).toNat = 0 := by omega
      unfold dayRange
      rw [dif_neg hd, h0]
      rfl

theorem dayRange_self_eq_map (d t : Int) :
    dayRange d t = (List.range (t + 1 - d).toNat).map (fun i : Nat => d + (i : Int)) :=
  dayRange_eq_map _ d t le_rfl

theorem dayRange_length (d t : Int) :
    (dayRange d t).length = (t + 1 - d).toNat := by
  rw [dayRange_self_eq_map, List.length_map, List.length_range]

theorem mem_dayRange (d t x : Int) : x ∈ dayRange d t ↔ d ≤ x ∧ x ≤ t := by
  rw [dayRange_self_eq_map]
  simp only [List.mem_map, List.mem_range]
  constructor
  · rintro ⟨i, hi, rfl⟩
    omega
  · rintro ⟨h1, h2⟩
    exact ⟨(x - d).toNat, by omega, by omega⟩

theorem nodup_dayRange (d t : Int) : (dayRange d t).Nodup := by
  rw [dayRange_self_eq_map]
  exact (List.nodup_range _).map (fun a b hab => by omega)

theorem count_dayRange (d t x : Int) :
    (dayRange d t).count x = if d ≤ x ∧ x ≤ t then 1 else 0 := by
  split_ifs with hx
  · exact List.count_eq_one_of_mem (nodup_dayRange d t) ((mem_dayRange d t x).2 hx)
  · exact List.count_eq_zero_of_not_mem (fun hmem => hx ((mem_dayRange d t x).1 hmem))

/-- C4: for a lookback of N days, a run of `populateSpoList` that raises
nothing visits exactly the N+1 calendar days from today-N through today
inclusive, in cursor order (one step per iteration), each exactly once —
whatever the fetch of each day returned. -/
theorem C4_day_coverage (N : Nat) (today : Int)
    (fetch : Int → Except PyExc SleepSummary) (db db' : DbState)
    (visited : List Int)
    (h : populateSpoList fetch (today - (N : Int)) today db = .ok (db', visited)) :
    visited = dayRange (today - (N : Int)) today ∧
    visited.length = N + 1 ∧
    (∀ d : Int, d ∈ visited ↔ today - (N : Int) ≤ d ∧ d ≤ today) ∧
    (∀ d : Int, visited.count d =
      if today - (N : Int) ≤ d ∧ d ≤ today then 1 else 0) := by
  have hv := populateLoop_visits fetch today
    ((today + 1 - (today - (N : Int))).toNat) (today - (N : Int)) db db' visited
    le_rfl h
  refine ⟨hv, ?_, ?_, ?_⟩
  · rw [hv, dayRange_length]
    omega
  · intro d
    rw [hv, mem_dayRange]
  · intro d
    rw [hv, count_dayRange]

/-- Witness for C4 at a concrete run with a lookback of 1 day, one failing
day and one empty day: both days are visited, in order. -/
theorem C4_witness :
    populateSpoList
      (fun d => if d = 0 then .error (.garthHTTPError (some 404) "404") else .ok [])
      (0 - ((1 : Nat) : Int)) 0 freshDb = .ok (freshDb, [-1, 0]) ∧
    ([-1, 0] : List Int).length = 1 + 1 := by
  have h : populateSpoList
      (fun d => if d = 0 then .error (.garthHTTPError (some 404) "404") else .ok [])
      (0 - ((1 : Nat) : Int)) 0 freshDb = .ok (freshDb, [-1, 0]) := by
    simp [populateSpoList, populateLoop, processDay, safe_api_call, freshDb]
    decide
  exact ⟨h, (C4_day_coverage 1 0 _ freshDb freshDb [-1, 0] h).2.1⟩

/-- C6: re-running the backfill over the same date range with unchanged
fetch outcomes is idempotent — the second run returns the database of the
first run unchanged, so the row count of the `spo2` table stays equal
(under the insert-if-absent storage contract of the spec). -/
theorem C6_idempotent (fetch : Int → Except PyExc SleepSummary)
    (startfrom today : Int) (db db1 : DbState) (v1 : List Int)
    (h1 : populateSpoList fetch startfrom today db = .ok (db1, v1)) :
    populateSpoList fetch startfrom today db1 = .ok (db1, v1) ∧
    (∀ (db2 : DbState) (v2 : List Int),
      populateSpoList fetch startfrom today db1 = .ok (db2, v2) →
      db2.rows.length = db1.rows.length) := by
  have h2 : populateSpoList fetch startfrom today db1 = .ok (db1, v1) :=
    populateLoop_absorb fetch today ((today + 1 - startfrom).toNat)
      startfrom db db1 v1 le_rfl h1
  refine ⟨h2, fun db2 v2 h3 => ?_⟩
  rw [h2] at h3
  injection h3 with h3
  simp only [Prod.mk.injEq] at h3
  rw [h3.1]

/-- Witness for C6: a one-day range whose fetch carries one SpO2 record;
after the first run has stored the row, a second run returns the same
database. -/
theorem C6_witness :
    populateSpoList
      (fun _ => .ok [("wellnessEpochSPO2DataDTOList",
        [SpoRec.mk "2023-05-01T22:24:00.0" 95 2])])
      1 1 (DbState.mk true [(PyDateTime.mk 2023 5 1 22 24 0 0, 95, 2)]) =
      .ok (DbState.mk true [(PyDateTime.mk 2023 5 1 22 24 0 0, 95, 2)], [1]) := by
  have h1 : populateSpoList
      (fun _ => .ok [("wellnessEpochSPO2DataDTOList",
        [SpoRec.mk "2023-05-01T22:24:00.0" 95 2])])
      1 1 (DbState.mk true []) =
      .ok (DbState.mk true [(PyDateTime.mk 2023 5 1 22 24 0 0, 95, 2)], [1]) := by
    simp [populateSpoList, populateLoop, processDay, safe_api_call]
    decide
  exact (C6_idempotent _ 1 1 _ _ _ h1).1

theorem processDay_missing_table (fetch : Int → Except PyExc SleepSummary)
    (dstar : Int) (rows : List Row) (summary : SleepSummary) (rec : SpoRec)
    (rest : List SpoRec) (m : Option String)
    (hfetch : safe_api_call (fetch dstar) = .ok (true, some summary, m))
    (hw : wellnessList summary = rec :: rest)
    (hparse : (fromisoformat (pyDropRight2 rec.epochTimestamp)).isSome = true) :
    processDay fetch dstar (DbState.mk false rows) =
      .error (.operationalError "no such table: spo2") := by
  have hne : summary.isEmpty = false := by
    cases summary with
    | nil => simp [wellnessList] at hw
    | cons a l => rfl
  obtain ⟨ts, hts⟩ := Option.isSome_iff_exists.1 hparse
  simp [processDay, hfetch, hne, hw, insertSpo2Records, hts]

theorem populateLoop_missing_table (fetch : Int → Except PyExc SleepSummary)
    (t dstar : Int) (rows : List Row) (hdt : dstar ≤ t)
    (hpd : processDay fetch dstar (DbState.mk false rows) =
      .error (.operationalError "no such table: spo2")) :
    ∀ (n : Nat) (d : Int), (dstar - d).toNat ≤ n → d ≤ dstar →
    (∀ e, d ≤ e → e < dstar → noInsertDay fetch e = true) →
    populateLoop fetch t d (DbState.mk false rows) =
      .error (.operationalError "no such table: spo2") := by
  intro n
  induction n with
  | zero =>
    intro d hn hd _hq
    have hds : d = dstar := by omega
    subst hds
    unfold populateLoop
    rw [dif_pos (le_trans hd hdt)]
    simp only [hpd]
  | succ n ih =>
    intro d hn hd hq
    by_cases hde : d = dstar
    · subst hde
      unfold populateLoop
      rw [dif_pos (le_trans hd hdt)]
      simp only [hpd]
    · have hlt : d < dstar := by omega
      unfold populateLoop
      rw [dif_pos (by omega : d ≤ t)]
      simp only [processDay_noInsert fetch d (DbState.mk false rows) (hq d le_rfl hlt)]
      simp only [ih (d + 1) (by omega) (by omega)
        (fun e he hlt2 => hq e (by omega) hlt2)]

/-- C10: `populateSpoList` never creates the `spo2` table (it only ever
leaves the table-existence flag unchanged), and against a database without
the table, the first day in range whose fetch succeeds with a truthy
summary carrying a non-empty SpO2 record list (whose first timestamp
parses) makes the insert raise the missing-table `OperationalError`, which
escapes `populateSpoList` uncaught. -/
theorem C10_missing_table (fetch : Int → Except PyExc SleepSummary)
    (startfrom today dstar : Int) (rows : List Row) (summary : SleepSummary)
    (rec : SpoRec) (rest : List SpoRec) (m : Option String)
    (h1 : startfrom ≤ dstar) (h2 : dstar ≤ today)
    (hq : ∀ d, startfrom ≤ d → d < dstar → noInsertDay fetch d = true)
    (hfetch : safe_api_call (fetch dstar) = .ok (true, some summary, m))
    (hw : wellnessList summary = rec :: rest)
    (hparse : (fromisoformat (pyDropRight2 rec.epochTimestamp)).isSome = true) :
    populateSpoList fetch startfrom today (DbState.mk false rows) =
      .error (.operationalError "no such table: spo2") ∧
    (∀ (db db' : DbState) (v : List Int),
      populateSpoList fetch startfrom today db = .ok (db', v) →
      db'.hasTable = db.hasTable) := by
  refine ⟨?_, fun db db' v h =>
    (populateLoop_hasTable_subset fetch today ((today + 1 - startfrom).toNat)
      startfrom db db' v le_rfl h).1⟩
  exact populateLoop_missing_table fetch today dstar rows h2
    (processDay_missing_table fetch dstar rows summary rec rest m hfetch hw hparse)
    ((dstar - startfrom).toNat) startfrom le_rfl h1 hq

/-- Witness for C10: a fresh database, a 404 day followed by a day with one
record — the run aborts with the missing-table error. -/
theorem C10_witness :
    populateSpoList
      (fun d => if d = 0 then .error (.garthHTTPError (some 404) "404")
        else .ok [("wellnessEpochSPO2DataDTOList",
          [SpoRec.mk "2023-05-01T22:24:00.0" 95 2])])
      0 1 (DbState.mk false []) = .error (.operationalError "no such table: spo2") := by
  refine (C10_missing_table _ 0 1 1 []
    [("wellnessEpochSPO2DataDTOList", [SpoRec.mk "2023-05-01T22:24:00.0" 95 2])]
    (SpoRec.mk "2023-05-01T22:24:00.0" 95 2) [] none
    (by decide) (by decide) ?_ (by decide) (by decide) (by decide)).1
  intro d hd1 hd2
  have hd0 : d = 0 := by omega
  subst hd0
  decide

/-- C5 as stated is false: for the upstream `epochTimestamp` shape
(an ISO-8601 date-time with one extra fractional digit), the code stores
the instant obtained by ISO-8601 parsing (`fromisoformat`) of the string
with its last two characters removed — while that remainder has no reading
at all under standard epoch-millisecond semantics, so the stored instant
cannot equal the value the claim prescribes. -/
theorem C5_counterexample :
    insertSpo2Records (DbState.mk true []) [SpoRec.mk "2023-05-01T22:24:00.0" 95 2] =
      .ok (DbState.mk true [(PyDateTime.mk 2023 5 1 22 24 0 0, 95, 2)]) ∧
    epochMillisSemantics (pyDropRight2 "2023-05-01T22:24:00.0") = none ∧
    some (pyDateTimeToEpochMs (PyDateTime.mk 2023 5 1 22 24 0 0)) ≠
      epochMillisSemantics (pyDropRight2 "2023-05-01T22:24:00.0") := by
  refine ⟨by decide, by decide, ?_⟩
  rw [show epochMillisSemantics (pyDropRight2 "2023-05-01T22:24:00.0") = none from by decide]
  simp

/-- C5 amended: for every record the insert loop stores, the instant kept
in its row is exactly the `fromisoformat` (ISO-8601) parse of the
`epochTimestamp` string with its last two characters removed — not an
epoch-millisecond reading; and conversely every row the loop adds arises
that way from some record. -/
theorem C5_timestamp_truncation (db db' : DbState) (recs : List SpoRec)
    (h : insertSpo2Records db recs = .ok db') :
    (∀ rec ∈ recs, ∃ dt, fromisoformat (pyDropRight2 rec.epochTimestamp) = some dt ∧
      (dt, rec.spo2Reading, rec.readingConfidence) ∈ db'.rows) ∧
    (∀ r ∈ db'.rows, r ∈ db.rows ∨ ∃ rec, rec ∈ recs ∧
      fromisoformat (pyDropRight2 rec.epochTimestamp) = some r.1 ∧
      r.2.1 = rec.spo2Reading ∧ r.2.2 = rec.readingConfidence) :=
  ⟨insertSpo2Records_complete recs db db' h, insertSpo2Records_sound recs db db' h⟩

/-- Witness for the amended C5 at the concrete upstream-shaped record. -/
theorem C5_timestamp_truncation_witness :
    ∃ dt, fromisoformat (pyDropRight2 "2023-05-01T22:24:00.0") = some dt ∧
      (dt, (SpoRec.mk "2023-05-01T22:24:00.0" 95 2).spo2Reading,
        (SpoRec.mk "2023-05-01T22:24:00.0" 95 2).readingConfidence) ∈
        (DbState.mk true [(PyDateTime.mk 2023 5 1 22 24 0 0, 95, 2)]).rows :=
  (C5_timestamp_truncation (DbState.mk true [])
      (DbState.mk true [(PyDateTime.mk 2023 5 1 22 24 0 0, 95, 2)])
      [SpoRec.mk "2023-05-01T22:24:00.0" 95 2] (by decide)).1
    (SpoRec.mk "2023-05-01T22:24:00.0" 95 2) (by decide)

theorem initApiLoop_not_fromTokens : ∀ (fuel : Nat) (env : Env) (k : Nat),
    (initApiLoop env k fuel).1 ≠ .client true := by
  intro fuel
  induction fuel with
  | zero =>
    intro env k h
    exact absurd h (by simp [initApiLoop])
  | succ fuel ih =>
    intro env k h
    unfold initApiLoop at h
    split at h
    · rename_i e _heq
      unfold outerCatch at h
      split at h <;> first
        | exact ih env (k + 1) h
        | simp at h
    · split at h
      · rename_i e _heq
        unfold outerCatch at h
        split at h <;> first
          | exact ih env (k + 1) h
          | simp at h
      · split at h
        · split at h
          · simp at h
          · split_ifs at h
            exact ih env (k + 1) h
          · exact ih env (k + 1) h
          · rename_i e _hne1 _hne2 _heq
            unfold outerCatch at h
            split at h <;> first
              | exact ih env (k + 1) h
              | simp at h
        · simp at h

/-- C8: with a valid persisted token store (the token login succeeds),
`init_api` returns the reused-session client at once: `get_credentials` is
never called, no MFA prompt is shown, and no token material is written;
moreover a reused-session result never carries a token write in any run
(tokens are dumped only on the fresh-login path). -/
theorem C8_session_reuse (env : Env) (fuel : Nat)
    (h : env.tokenLogin = .ok ()) :
    init_api env fuel = (.client true, []) ∧
    Effect.readCredentials ∉ (init_api env fuel).2 ∧
    Effect.promptMFA ∉ (init_api env fuel).2 ∧
    Effect.dumpTokens ∉ (init_api env fuel).2 ∧
    (∀ (env2 : Env) (fuel2 : Nat), (init_api env2 fuel2).1 = .client true →
      Effect.dumpTokens ∉ (init_api env2 fuel2).2) := by
  have hmain : init_api env fuel = (.client true, []) := by
    unfold init_api
    rw [h]
  refine ⟨hmain, ?_, ?_, ?_, ?_⟩
  · rw [hmain]; simp
  · rw [hmain]; simp
  · rw [hmain]; simp
  · intro env2 fuel2 h2
    unfold init_api at h2 ⊢
    split at h2
    · simp
    · split at h2 <;>
        first
        | exact absurd h2 (initApiLoop_not_fromTokens _ _ _)
        | simp at h2

/-- Witness for C8: a concrete environment whose stored tokens are valid. -/
theorem C8_witness :
    init_api
      (Env.mk (.ok ()) (fun _ => .ok (LoginRes.mk false)) (fun _ => .ok ())
        none none "cfg@example.com" "pw") 3 = (.client true, []) :=
  (C8_session_reuse
    (Env.mk (.ok ()) (fun _ => .ok (LoginRes.mk false)) (fun _ => .ok ())
      none none "cfg@example.com" "pw") 3 rfl).1

/-- C9: on an MFA resume failure raised as a `GarthHTTPError`, the
credential loop exits the process with status 1 when the error text is
classified rate-limited (contains both 429 and the Too-Many-Requests
phrase), re-prompts (continues with the next loop iteration, after this
iteration read credentials and prompted for the code) when it is instead
classified invalid-code (contains 401 or 403), and exits with status 1 on
any other HTTP text; the process exit code is 0 on graceful completion and
on user cancellation (`KeyboardInterrupt`), and 1 for the escaping
`sys.exit(1)`. -/
theorem C9_mfa_resume (env : Env) (k fuel : Nat) (sc : Option Nat)
    (error_str : String)
    (henvE : pyTruthyStr env.envEmail = false)
    (henvP : pyTruthyStr env.envPassword = false)
    (hlogin : env.credLogin k = .ok (LoginRes.mk true))
    (hres : env.mfaResume k = .error (.garthHTTPError sc error_str)) :
    (mfaRateLimited error_str = true →
      initApiLoop env k (fuel + 1) =
        (.exc (.systemExit 1), [.readCredentials, .promptMFA])) ∧
    (mfaRateLimited error_str = false → mfaInvalidCode error_str = true →
      initApiLoop env k (fuel + 1) =
        ((initApiLoop env (k + 1) fuel).1,
          .readCredentials :: .promptMFA :: (initApiLoop env (k + 1) fuel).2)) ∧
    (mfaRateLimited error_str = false → mfaInvalidCode error_str = false →
      initApiLoop env k (fuel + 1) =
        (.exc (.systemExit 1), [.readCredentials, .promptMFA])) ∧
    programExitCode (.error (.systemExit 1)) = 1 ∧
    programExitCode (.ok ()) = 0 ∧
    programExitCode (.error .keyboardInterrupt) = 0 := by
  have hcred : get_credentials env.envEmail env.envPassword env.cfgEmail
      env.cfgPassword = .ok (env.cfgEmail, env.cfgPassword) := by
    unfold get_credentials
    rw [henvE, henvP]
    simp
  refine ⟨?_, ?_, ?_, rfl, rfl, rfl⟩
  · intro hrl
    simp only [initApiLoop]
    rw [hcred, hlogin]
    simp [hres, hrl]
  · intro hrl hic
    simp only [initApiLoop]
    rw [hcred, hlogin]
    simp [hres, hrl, hic]
  · intro hrl hic
    simp only [initApiLoop]
    rw [hcred, hlogin]
    simp [hres, hrl, hic]

/-- Witness for C9: a concrete rate-limited MFA failure aborts with
`sys.exit(1)`. -/
theorem C9_witness :
    initApiLoop
      (Env.mk (.error .fileNotFoundError) (fun _ => .ok (LoginRes.mk true))
        (fun _ => .error (.garthHTTPError (some 429)
          "429 Client Error: Too Many Requests for url: x"))
        none none "cfg@example.com" "pw") 0 1 =
      (.exc (.systemExit 1), [.readCredentials, .promptMFA]) :=
  (C9_mfa_resume
    (Env.mk (.error .fileNotFoundError) (fun _ => .ok (LoginRes.mk true))
      (fun _ => .error (.garthHTTPError (some 429)
        "429 Client Error: Too Many Requests for url: x"))
      none none "cfg@example.com" "pw") 0 0 (some 429)
    "429 Client Error: Too Many Requests for url: x"
    rfl rfl rfl rfl).1 (by decide)

end GarminSpo2
